import Mathlib

/-!
Verification of the seat-map parser (`seatmap_parser.py`).

The development shallowly embeds the Python source: XML elements become an
inductive tree, `xml.etree.ElementTree` accessors (`find`, `iterfind`,
`findall`, `.get`, `.text`) become total functions on that tree, Python
dicts become association lists with last-write-wins insertion, Python
floats are modelled by exact rationals, and each fallible Python
expression runs in `Except PyErr`.  The functions `parse_from`,
`parse_opentravel` and `parse_iata` mirror the source functions of the
same names statement by statement.
-/

set_option linter.unusedVariables false

/-- A Python value as it appears in a seat record field: a string, a number
(Python float, modelled by an exact rational), or Python `None`. -/
inductive PyVal : Type where
  | str : String → PyVal
  | num : Rat → PyVal
  | none : PyVal
  deriving Repr, DecidableEq

/-- The Python exceptions the source can raise while transforming a parsed
document: `ValueError` (failed `float`/`int` conversion, and the explicit
unsupported-format raise), `TypeError` (an operation applied to `None`),
`AttributeError` (`.get`/`.text` on `None`), `KeyError` (dict lookup miss). -/
inductive PyErr : Type where
  | valueError : String → PyErr
  | typeError : String → PyErr
  | attributeError : String → PyErr
  | keyError : String → PyErr
  deriving Repr, DecidableEq

/-- An `xml.etree.ElementTree` element: tag (namespace-qualified), attribute
list, text (the text before the first child, `None` when absent), children. -/
inductive Element : Type where
  | mk : String → List (String × String) → Option String → List Element → Element

def Element.tag : Element → String
  | .mk t _ _ _ => t

def Element.attrib : Element → List (String × String)
  | .mk _ a _ _ => a

def Element.text : Element → Option String
  | .mk _ _ x _ => x

def Element.children : Element → List Element
  | .mk _ _ _ c => c

/-- Python `element.get(key)`: the attribute value, or `None` when absent. -/
def Element.get (e : Element) (k : String) : Option String :=
  (e.attrib.find? (fun p => p.1 == k)).map (fun p => p.2)

/-- The direct children of `e` carrying tag `t` — one step of an
ElementTree path. -/
def childrenTagged (e : Element) (t : String) : List Element :=
  e.children.filter (fun c => c.tag == t)

/-- Python `element.findall(path)` / `element.iterfind(path)` for a path of
plain tag steps: all elements reached by following the tags, in document
order. -/
def findallPath (e : Element) : List String → List Element
  | [] => [e]
  | t :: ts => (childrenTagged e t).flatMap (fun c => findallPath c ts)

/-- Python `element.find(path)`: first match of the path, or `None`. -/
def findPath (e : Element) (p : List String) : Option Element :=
  (findallPath e p).head?

/-- Python truthiness of an optional element: `None` is falsy, and an
`ElementTree` element is truthy exactly when it has children. -/
def truthyElem : Option Element → Bool
  | some e => !e.children.isEmpty
  | Option.none => false

/-- The value a Python expression holding a string-or-None puts in a record
field. -/
def pvOfOpt : Option String → PyVal
  | Option.none => PyVal.none
  | some s => PyVal.str s

/-- Python `needle in hay` on strings (substring test). -/
def strContains (hay needle : String) : Bool :=
  (hay.splitOn needle).length != 1

/-- Python `s.endswith(suffix)`. -/
def pyEndsWith (s suffix : String) : Bool :=
  suffix.data.isSuffixOf s.data

/-- The numeric value of a digit string (most significant digit first). -/
def digitsNum (l : List Char) : Nat :=
  l.foldl (fun acc c => acc * 10 + (c.toNat - 48)) 0

/-- A nonempty all-digit string parsed as a natural number. -/
def parseDigits (l : List Char) : Option Nat :=
  if l.isEmpty then Option.none
  else if l.all Char.isDigit then some (digitsNum l) else Option.none

/-- Python `int(s)` on the decimal fragment the source exercises: an
optional sign followed by digits.  `None` on anything else
(in particular on strings with a decimal point). -/
def pyInt (s : String) : Option Int :=
  match s.data with
  | '-' :: rest => (parseDigits rest).map (fun n => -(n : Int))
  | '+' :: rest => (parseDigits rest).map (fun n => (n : Int))
  | l => (parseDigits l).map (fun n => (n : Int))

/-- The unsigned body of a Python float literal: digits, optionally with a
decimal point on either side.  Exact rational value. -/
def pyFloatBody (l : List Char) : Option Rat :=
  let ip := l.takeWhile Char.isDigit
  match l.dropWhile Char.isDigit with
  | [] => if ip.isEmpty then Option.none else some ((digitsNum ip : Rat))
  | '.' :: frac =>
      if frac.all Char.isDigit && !(ip.isEmpty && frac.isEmpty) then
        some ((digitsNum ip : Rat) + (digitsNum frac : Rat) / (10 : Rat) ^ frac.length)
      else Option.none
  | _ => Option.none

/-- Python `float(s)` on the plain decimal fragment the source exercises
(optional sign, digits, optional decimal point), with floats modelled by
exact rationals. -/
def pyFloat (s : String) : Option Rat :=
  match s.data with
  | '-' :: rest => (pyFloatBody rest).map (fun q => -q)
  | '+' :: rest => pyFloatBody rest
  | l => pyFloatBody l

/-- Python `maybe_element.get(key)`: `AttributeError` when the element is
`None`. -/
def pyGetOn (e : Option Element) (k : String) : Except PyErr (Option String) :=
  match e with
  | some el => Except.ok (el.get k)
  | Option.none => Except.error (PyErr.attributeError "NoneType object has no attribute get")

/-- Python `maybe_element.text`: `AttributeError` when the element is
`None`. -/
def pyTextOn (e : Option Element) : Except PyErr (Option String) :=
  match e with
  | some el => Except.ok el.text
  | Option.none => Except.error (PyErr.attributeError "NoneType object has no attribute text")

/-- Python `float(x)` applied to a string-or-None. -/
def pyFloatOf (x : Option String) : Except PyErr Rat :=
  match x with
  | some s =>
      match pyFloat s with
      | some q => Except.ok q
      | Option.none => Except.error (PyErr.valueError ("could not convert string to float: " ++ s))
  | Option.none => Except.error (PyErr.typeError "float argument must be a string or a real number, not NoneType")

/-- Python `int(x)` applied to a string-or-None. -/
def pyIntOf (x : Option String) : Except PyErr Int :=
  match x with
  | some s =>
      match pyInt s with
      | some n => Except.ok n
      | Option.none => Except.error (PyErr.valueError ("invalid literal for int with base 10: " ++ s))
  | Option.none => Except.error (PyErr.typeError "int argument must be a string or a number, not NoneType")

/-- Python `a + b` on string-or-None operands. -/
def pyStrConcat (a b : Option String) : Except PyErr String :=
  match a, b with
  | some x, some y => Except.ok (x ++ y)
  | Option.none, _ => Except.error (PyErr.typeError "unsupported operand types for add: NoneType and str")
  | some _, Option.none => Except.error (PyErr.typeError "can only concatenate str to str, not NoneType")

/-- A Python list comprehension over a fallible body: stops at the first
raised exception, otherwise collects the results in order. -/
def exceptMap (f : α → Except PyErr β) : List α → Except PyErr (List β)
  | [] => Except.ok []
  | x :: xs => do
      let y ← f x
      let ys ← exceptMap f xs
      Except.ok (y :: ys)

/-- Python dict read without raising: `d.get(k)` (used in specifications). -/
def dictGet (d : List (Option String × α)) (k : Option String) : Option α :=
  match d with
  | [] => Option.none
  | p :: rest => if p.1 == k then some p.2 else dictGet rest k

/-- Python `d[k] = v`: replace the value at an existing key in place,
otherwise append the new binding (insertion order preserved). -/
def dictInsert (d : List (Option String × α)) (k : Option String) (v : α) : List (Option String × α) :=
  match d with
  | [] => [(k, v)]
  | p :: rest => if p.1 == k then (p.1, v) :: rest else p :: dictInsert rest k v

/-- The key as Python would print it in a `KeyError`. -/
def keyRepr : Option String → String
  | Option.none => "None"
  | some s => s

/-- Python `d[k]` as an expression: `KeyError` when the key is absent. -/
def pyDictGet (d : List (Option String × α)) (k : Option String) : Except PyErr α :=
  match d with
  | [] => Except.error (PyErr.keyError (keyRepr k))
  | p :: rest => if p.1 == k then Except.ok p.2 else pyDictGet rest k

/-- One output seat record (one JSON object of the output). -/
structure SeatRecord where
  id : Option String
  available : Bool
  cabinClass : Option String
  price : PyVal
  currency : PyVal
  seatType : List (Option String)
  deriving Repr, DecidableEq

/-- The output mapping: row-number key (an attribute or text value, hence
possibly `None`) to the row's seat records, in insertion order. -/
abbrev SeatMap : Type := List (Option String × List SeatRecord)

/-- Tag qualified by the SOAP envelope namespace (`soapenv:` in the source). -/
def soapNS (s : String) : String :=
  "\x7bhttp://schemas.xmlsoap.org/soap/envelope/\x7d" ++ s

/-- Tag qualified by the OpenTravel namespace (`ns:` in the source). -/
def otNS (s : String) : String :=
  "\x7bhttp://www.opentravel.org/OTA/2003/05/common/\x7d" ++ s

/-- Tag qualified by the IATA EDIST default namespace. -/
def iataNS (s : String) : String :=
  "\x7bhttp://www.iata.org/IATA/EDIST/2017.2\x7d" ++ s

/-- One entry of the `seatType` comprehension in `parse_opentravel`:
`feat.text if "Other" not in feat.text else feat.get("extension")`.
Membership in `None` text is a `TypeError`. -/
def otFeatureVal (feat : Element) : Except PyErr (Option String) :=
  match feat.text with
  | Option.none => Except.error (PyErr.typeError "argument of type NoneType is not iterable")
  | some t =>
      if strContains t "Other" then Except.ok (feat.get "extension")
      else Except.ok (some t)

/-- Lines 90–98 of the source: the `Service` truthiness test and the fee
decoding.  `if service:` is false both for a missing `Service` child and
for one with no children; the fee branch reads `Amount`, converts it with
`float`, reads `DecimalPlaces`, converts it with `int`, divides, and reads
`CurrencyCode`, in that evaluation order. -/
def otPriceCurrency (seat : Element) : Except PyErr (PyVal × PyVal) :=
  match findPath seat [otNS "Service"] with
  | some sv =>
      if sv.children.isEmpty then
        Except.ok (PyVal.str "no offer", PyVal.str "no offer")
      else do
        let fee := findPath sv [otNS "Fee"]
        let amountS ← pyGetOn fee "Amount"
        let amount ← pyFloatOf amountS
        let dpS ← pyGetOn fee "DecimalPlaces"
        let dp ← pyIntOf dpS
        let currency ← pyGetOn fee "CurrencyCode"
        Except.ok (PyVal.num (amount / (10 : Rat) ^ dp), pvOfOpt currency)
  | Option.none => Except.ok (PyVal.str "no offer", PyVal.str "no offer")

/-- Lines 89–113 of the source: one OpenTravel seat record.  `summary` is
looked up, price/currency are computed, then the record literal evaluates
`id`, `available`, `cabinClass`, `price`, `currency`, `seatType` in order
(so a missing `Summary` raises at the `id` field first). -/
def otSeatRecord (cabin_class : Option String) (seat : Element) : Except PyErr SeatRecord := do
  let summary := findPath seat [otNS "Summary"]
  let pc ← otPriceCurrency seat
  let idv ← pyGetOn summary "SeatNumber"
  let availv ← pyGetOn summary "AvailableInd"
  let st ← exceptMap otFeatureVal (childrenTagged seat (otNS "Features"))
  Except.ok {
    id := idv,
    available := availv == some "true",
    cabinClass := cabin_class,
    price := pc.1,
    currency := pc.2,
    seatType := st
  }

/-- One iteration of the OpenTravel row loop: the row's `CabinType`
attribute is read, every `SeatInfo` child becomes a record, and the pair
(`RowNumber` attribute, seat list) is what the row contributes to `out`. -/
def otRowEval (row : Element) : Except PyErr (Option String × List SeatRecord) := do
  let seats ← exceptMap (otSeatRecord (row.get "CabinType")) (childrenTagged row (otNS "SeatInfo"))
  Except.ok (row.get "RowNumber", seats)

/-- The OpenTravel row loop: each row's seats are stored under its
`RowNumber` key by dict assignment. -/
def otRows : List Element → SeatMap → Except PyErr SeatMap
  | [], out => Except.ok out
  | row :: rest, out => do
      let p ← otRowEval row
      otRows rest (dictInsert out p.1 p.2)

/-- The OpenTravel cabin loop: `for row in cabin` ranges over all children
of the cabin element. -/
def otCabins : List Element → SeatMap → Except PyErr SeatMap
  | [], out => Except.ok out
  | cabin :: rest, out => do
      let out2 ← otRows cabin.children out
      otCabins rest out2

/-- The `iterfind` path from the SOAP root down to the cabin elements. -/
def otCabinsPath : List String :=
  [soapNS "Body", otNS "OTA_AirSeatMapRS", otNS "SeatMapResponses",
   otNS "SeatMapResponse", otNS "SeatMapDetails", otNS "CabinClass"]

/-- `parse_opentravel` of the source. -/
def parse_opentravel (root : Element) : Except PyErr SeatMap :=
  otCabins (findallPath root otCabinsPath) []

/-- One iteration of the offer-index loop of `parse_iata`: the nested
`SimpleCurrencyPrice` element gives the currency (its `Code` attribute) and
the price (its text through `float`); the dict key is the `OfferItemID`
attribute and the stored value is the tuple `(currency, price)`. -/
def iataOfferEval (offer : Element) : Except PyErr (Option String × (Option String × Rat)) := do
  let cp := findPath offer [iataNS "UnitPriceDetail", iataNS "TotalAmount", iataNS "SimpleCurrencyPrice"]
  let currency ← pyGetOn cp "Code"
  let txt ← pyTextOn cp
  let price ← pyFloatOf txt
  Except.ok (offer.get "OfferItemID", (currency, price))

/-- The offer-index loop (`offers` dict of the source). -/
def iataOffers : List Element → List (Option String × (Option String × Rat)) → Except PyErr (List (Option String × (Option String × Rat)))
  | [], d => Except.ok d
  | o :: rest, d => do
      let p ← iataOfferEval o
      iataOffers rest (dictInsert d p.1 p.2)

/-- One entry of the seat-definition dict comprehension: key is the
`SeatDefinitionID` attribute, value the text of the nested
`Description/Text` element (`AttributeError` when that element is
missing). -/
def iataDefEval (defn : Element) : Except PyErr (Option String × Option String) := do
  let v ← pyTextOn (findPath defn [iataNS "Description", iataNS "Text"])
  Except.ok (defn.get "SeatDefinitionID", v)

/-- The seat-definition dict comprehension (`defs` of the source). -/
def iataDefs : List Element → List (Option String × Option String) → Except PyErr (List (Option String × Option String))
  | [], d => Except.ok d
  | e :: rest, d => do
      let p ← iataDefEval e
      iataDefs rest (dictInsert d p.1 p.2)

/-- Lines 141–145 of the source: `price, currency = offers[offer.text]`.
The dict stores the tuple `(currency, price)`, and the tuple unpacking is
positional, so the record's `price` receives the stored currency string and
its `currency` receives the stored numeric price. -/
def resolveOffer (offers : List (Option String × (Option String × Rat))) (seat : Element) : Except PyErr (PyVal × PyVal) :=
  match findPath seat [iataNS "OfferItemRefs"] with
  | some offer => do
      let cp ← pyDictGet offers offer.text
      Except.ok (pvOfOpt cp.1, PyVal.num cp.2)
  | Option.none => Except.ok (PyVal.str "no offer", PyVal.str "no offer")

/-- Lines 146–149 of the source: resolve every `SeatDefinitionRef` child
against the seat-definition dict; an unknown reference raises `KeyError`. -/
def resolveRefs (defs : List (Option String × Option String)) (seat : Element) : Except PyErr (List (Option String)) :=
  exceptMap (fun ref => pyDictGet defs ref.text) (childrenTagged seat (iataNS "SeatDefinitionRef"))

/-- Lines 140–159 of the source: one IATA seat record.  Offer resolution
runs first, then reference resolution, then the record literal computes
`id` (row number concatenated with the `Column` text), `available`
(membership of `"AVAILABLE"` in the resolved list), the constant
`cabinClass`, the price/currency pair, and the filtered `seatType`. -/
def iataSeatRecord (offers : List (Option String × (Option String × Rat))) (defs : List (Option String × Option String)) (row_num : Option String) (seat : Element) : Except PyErr SeatRecord := do
  let pc ← resolveOffer offers seat
  let st ← resolveRefs defs seat
  let colT ← pyTextOn (findPath seat [iataNS "Column"])
  let idv ← pyStrConcat row_num colT
  Except.ok {
    id := some idv,
    available := st.contains (some "AVAILABLE"),
    cabinClass := some "unspecified",
    price := pc.1,
    currency := pc.2,
    seatType := st.filter (fun x => x != some "AVAILABLE")
  }

/-- One iteration of the IATA row loop: the row key is the text of the
row's `Number` child (an `AttributeError` when that child is missing), the
value the list of records of its `Seat` children. -/
def iataRowEval (offers : List (Option String × (Option String × Rat))) (defs : List (Option String × Option String)) (row : Element) : Except PyErr (Option String × List SeatRecord) := do
  let row_num ← pyTextOn (findPath row [iataNS "Number"])
  let seats ← exceptMap (iataSeatRecord offers defs row_num) (childrenTagged row (iataNS "Seat"))
  Except.ok (row_num, seats)

/-- The IATA row loop: each row's seats are stored under its number by dict
assignment. -/
def iataRows (offers : List (Option String × (Option String × Rat))) (defs : List (Option String × Option String)) : List Element → SeatMap → Except PyErr SeatMap
  | [], out => Except.ok out
  | row :: rest, out => do
      let p ← iataRowEval offers defs row
      iataRows offers defs rest (dictInsert out p.1 p.2)

/-- The `iterfind` path to the offer items. -/
def iataOfferPath : List String :=
  [iataNS "ALaCarteOffer", iataNS "ALaCarteOfferItem"]

/-- The `iterfind` path to the seat definitions. -/
def iataDefPath : List String :=
  [iataNS "DataLists", iataNS "SeatDefinitionList", iataNS "SeatDefinition"]

/-- The `iterfind` path to the rows. -/
def iataRowPath : List String :=
  [iataNS "SeatMap", iataNS "Cabin", iataNS "Row"]

/-- `parse_iata` of the source: build the offer index, build the
seat-definition index, then walk the rows. -/
def parse_iata (root : Element) : Except PyErr SeatMap := do
  let offers ← iataOffers (findallPath root iataOfferPath) []
  let defs ← iataDefs (findallPath root iataDefPath) []
  iataRows offers defs (findallPath root iataRowPath) []

/-- `parse_from` of the source, starting from the parsed document's root
element (obtaining the tree from the file is the external XML collaborator
of the spec): dispatch on the root tag suffix, or raise `ValueError`. -/
def parse_from (root : Element) : Except PyErr SeatMap :=
  if pyEndsWith root.tag "Envelope" then parse_opentravel root
  else if pyEndsWith root.tag "SeatAvailabilityRS" then parse_iata root
  else Except.error (PyErr.valueError "unsupported XML format: use OpenTravel or IATA.")

/-- The Seat-Map Assembler: accumulate evaluated (row key, seats) pairs into
the output dict by repeated dict assignment, as both extractors do. -/
def assembled (ps : List (Option String × List SeatRecord)) (out : SeatMap) : SeatMap :=
  ps.foldl (fun d p => dictInsert d p.1 p.2) out


/-! ### Concrete documents used as witnesses and counterexamples -/

/-- Shorthand element constructor for concrete documents. -/
def el (tag : String) (attrs : List (String × String)) (text : Option String) (children : List Element) : Element :=
  Element.mk tag attrs text children

/-- IATA document: offer index maps OFF1 to (USD, 25.5); row 12 has one
seat in column A referencing OFF1. -/
def docC1 : Element :=
  el (iataNS "SeatAvailabilityRS") [] Option.none [
    el (iataNS "ALaCarteOffer") [] Option.none [
      el (iataNS "ALaCarteOfferItem") [("OfferItemID", "OFF1")] Option.none [
        el (iataNS "UnitPriceDetail") [] Option.none [
          el (iataNS "TotalAmount") [] Option.none [
            el (iataNS "SimpleCurrencyPrice") [("Code", "USD")] (some "25.5") []]]]],
    el (iataNS "SeatMap") [] Option.none [
      el (iataNS "Cabin") [] Option.none [
        el (iataNS "Row") [] Option.none [
          el (iataNS "Number") [] (some "12") [],
          el (iataNS "Seat") [] Option.none [
            el (iataNS "OfferItemRefs") [] (some "OFF1") [],
            el (iataNS "Column") [] (some "A") []]]]]]

/-- The record the source produces for the seat of `docC1`. -/
def recC1 : SeatRecord :=
  { id := some "12A", available := false, cabinClass := some "unspecified",
    price := PyVal.str "USD", currency := PyVal.num ((51 : Rat) / 2), seatType := [] }

/-- IATA document: offer index maps OFF9 to (EUR, 10.0); row 3 has one seat
in column C referencing OFF9. -/
def docC7 : Element :=
  el (iataNS "SeatAvailabilityRS") [] Option.none [
    el (iataNS "ALaCarteOffer") [] Option.none [
      el (iataNS "ALaCarteOfferItem") [("OfferItemID", "OFF9")] Option.none [
        el (iataNS "UnitPriceDetail") [] Option.none [
          el (iataNS "TotalAmount") [] Option.none [
            el (iataNS "SimpleCurrencyPrice") [("Code", "EUR")] (some "10.0") []]]]],
    el (iataNS "SeatMap") [] Option.none [
      el (iataNS "Cabin") [] Option.none [
        el (iataNS "Row") [] Option.none [
          el (iataNS "Number") [] (some "3") [],
          el (iataNS "Seat") [] Option.none [
            el (iataNS "OfferItemRefs") [] (some "OFF9") [],
            el (iataNS "Column") [] (some "C") []]]]]]

/-- The record the source produces for the seat of `docC7`. -/
def recC7 : SeatRecord :=
  { id := some "3C", available := false, cabinClass := some "unspecified",
    price := PyVal.str "EUR", currency := PyVal.num (10 : Rat), seatType := [] }

/-- A childless OpenTravel root (only the root tag matters to dispatch). -/
def rootEnvC2 : Element :=
  el (soapNS "Envelope") [] Option.none []

/-- A childless IATA root (only the root tag matters to dispatch). -/
def rootRsC2 : Element :=
  el (iataNS "SeatAvailabilityRS") [] Option.none []

/-- An unrecognized root. -/
def rootFooC2 : Element :=
  el "Foo" [] Option.none []

/-- Seat-definition index for the C3 witness: D1 is the AVAILABLE marker,
D2 a Window feature. -/
def defsC3 : List (Option String × Option String) :=
  [(some "D1", some "AVAILABLE"), (some "D2", some "Window")]

/-- IATA seat referencing D1 and D2, no offer reference, column A. -/
def seatC3 : Element :=
  el (iataNS "Seat") [] Option.none [
    el (iataNS "SeatDefinitionRef") [] (some "D1") [],
    el (iataNS "SeatDefinitionRef") [] (some "D2") [],
    el (iataNS "Column") [] (some "A") []]

/-- The resolved display names of `seatC3`. -/
def stC3 : List (Option String) :=
  [some "AVAILABLE", some "Window"]

/-- The record the source produces for `seatC3` in row 7. -/
def recC3 : SeatRecord :=
  { id := some "7A", available := true, cabinClass := some "unspecified",
    price := PyVal.str "no offer", currency := PyVal.str "no offer",
    seatType := [some "Window"] }

/-- The Fee element of the C4 witness seat. -/
def feeC4 : Element :=
  el (otNS "Fee") [("Amount", "4400"), ("DecimalPlaces", "2"), ("CurrencyCode", "USD")] Option.none []

/-- The Service element of the C4 witness seat. -/
def svC4 : Element :=
  el (otNS "Service") [] Option.none [feeC4]

/-- OpenTravel seat with a priced service: Amount 4400, two decimal
places, USD. -/
def seatC4 : Element :=
  el (otNS "SeatInfo") [] Option.none [
    el (otNS "Summary") [("SeatNumber", "1A"), ("AvailableInd", "true")] Option.none [],
    svC4]

/-- The record the source produces for `seatC4`. -/
def recC4 : SeatRecord :=
  { id := some "1A", available := true, cabinClass := some "Economy",
    price := PyVal.num (44 : Rat), currency := PyVal.str "USD", seatType := [] }

/-- A `Service` element that exists but has no children. -/
def svC5 : Element :=
  el (otNS "Service") [] Option.none []

/-- OpenTravel seat whose `Service` child is present but empty. -/
def seatC5 : Element :=
  el (otNS "SeatInfo") [] Option.none [
    el (otNS "Summary") [("SeatNumber", "2B")] Option.none [],
    svC5]

/-- The record the source produces for `seatC5`. -/
def recC5 : SeatRecord :=
  { id := some "2B", available := false, cabinClass := some "Economy",
    price := PyVal.str "no offer", currency := PyVal.str "no offer", seatType := [] }

/-- Fee with a non-numeric Amount. -/
def feeC6a : Element :=
  el (otNS "Fee") [("Amount", "abc"), ("DecimalPlaces", "2"), ("CurrencyCode", "USD")] Option.none []

def svC6a : Element :=
  el (otNS "Service") [] Option.none [feeC6a]

/-- OpenTravel seat whose Fee Amount does not parse as a float. -/
def seatC6a : Element :=
  el (otNS "SeatInfo") [] Option.none [
    el (otNS "Summary") [("SeatNumber", "3C")] Option.none [],
    svC6a]

/-- Fee whose DecimalPlaces does not parse as an int. -/
def feeC6b : Element :=
  el (otNS "Fee") [("Amount", "4400"), ("DecimalPlaces", "2.0"), ("CurrencyCode", "USD")] Option.none []

def svC6b : Element :=
  el (otNS "Service") [] Option.none [feeC6b]

def seatC6b : Element :=
  el (otNS "SeatInfo") [] Option.none [
    el (otNS "Summary") [("SeatNumber", "3D")] Option.none [],
    svC6b]

/-- Fee with a float-parseable but non-integer Amount. -/
def feeC6c : Element :=
  el (otNS "Fee") [("Amount", "44.5"), ("DecimalPlaces", "1"), ("CurrencyCode", "EUR")] Option.none []

def svC6c : Element :=
  el (otNS "Service") [] Option.none [feeC6c]

/-- OpenTravel seat whose Fee Amount is the non-integer string 44.5. -/
def seatC6c : Element :=
  el (otNS "SeatInfo") [] Option.none [
    el (otNS "Summary") [("SeatNumber", "3E")] Option.none [],
    svC6c]

/-- The record the source produces for `seatC6c`: no error, price 4.45. -/
def recC6c : SeatRecord :=
  { id := some "3E", available := false, cabinClass := some "Economy",
    price := PyVal.num ((89 : Rat) / 20), currency := PyVal.str "EUR", seatType := [] }

/-- An `OfferItemRefs` element whose text is not in any offer index. -/
def offerRefC8 : Element :=
  el (iataNS "OfferItemRefs") [] (some "OFF1") []

/-- IATA seat referencing the unknown offer OFF1. -/
def seatC8a : Element :=
  el (iataNS "Seat") [] Option.none [offerRefC8, el (iataNS "Column") [] (some "A") []]

/-- A `SeatDefinitionRef` element whose text is not in any definition index. -/
def refC8 : Element :=
  el (iataNS "SeatDefinitionRef") [] (some "R1") []

/-- IATA seat with no offer reference but an unknown definition reference. -/
def seatC8b : Element :=
  el (iataNS "Seat") [] Option.none [refC8, el (iataNS "Column") [] (some "B") []]

/-- The single row of `docC8`. -/
def rowC8 : Element :=
  el (iataNS "Row") [] Option.none [
    el (iataNS "Number") [] (some "5") [],
    el (iataNS "Seat") [] Option.none [el (iataNS "Column") [] (some "A") []]]

/-- A minimal IATA document that parses successfully. -/
def docC8 : Element :=
  el (iataNS "SeatAvailabilityRS") [] Option.none [
    el (iataNS "SeatMap") [] Option.none [
      el (iataNS "Cabin") [] Option.none [rowC8]]]

/-- The record the source produces for the seat of `docC8`. -/
def recC8 : SeatRecord :=
  { id := some "5A", available := false, cabinClass := some "unspecified",
    price := PyVal.str "no offer", currency := PyVal.str "no offer", seatType := [] }

/-- The output of `parse_iata` on `docC8`. -/
def mC8 : SeatMap :=
  [(some "5", [recC8])]

/-- IATA seat in column A with no references. -/
def seatC9iA : Element :=
  el (iataNS "Seat") [] Option.none [el (iataNS "Column") [] (some "A") []]

/-- IATA seat in column B with no references. -/
def seatC9iB : Element :=
  el (iataNS "Seat") [] Option.none [el (iataNS "Column") [] (some "B") []]

/-- First IATA row numbered 12. -/
def rowC9iA : Element :=
  el (iataNS "Row") [] Option.none [el (iataNS "Number") [] (some "12") [], seatC9iA]

/-- Second IATA row, also numbered 12. -/
def rowC9iB : Element :=
  el (iataNS "Row") [] Option.none [el (iataNS "Number") [] (some "12") [], seatC9iB]

/-- IATA document with two rows both numbered 12. -/
def docC9i : Element :=
  el (iataNS "SeatAvailabilityRS") [] Option.none [
    el (iataNS "SeatMap") [] Option.none [
      el (iataNS "Cabin") [] Option.none [rowC9iA, rowC9iB]]]

def recC9iA : SeatRecord :=
  { id := some "12A", available := false, cabinClass := some "unspecified",
    price := PyVal.str "no offer", currency := PyVal.str "no offer", seatType := [] }

def recC9iB : SeatRecord :=
  { id := some "12B", available := false, cabinClass := some "unspecified",
    price := PyVal.str "no offer", currency := PyVal.str "no offer", seatType := [] }

/-- The evaluated (row key, seats) pairs of `docC9i`, in traversal order. -/
def psC9i : List (Option String × List SeatRecord) :=
  [(some "12", [recC9iA]), (some "12", [recC9iB])]

/-- The output of `parse_iata` on `docC9i`: only the second row survives. -/
def mC9i : SeatMap :=
  [(some "12", [recC9iB])]

/-- First OpenTravel row numbered 12. -/
def rowC9oA : Element :=
  el (otNS "AirRow") [("RowNumber", "12"), ("CabinType", "Economy")] Option.none [
    el (otNS "SeatInfo") [] Option.none [
      el (otNS "Summary") [("SeatNumber", "12A")] Option.none []]]

/-- Second OpenTravel row, also numbered 12. -/
def rowC9oB : Element :=
  el (otNS "AirRow") [("RowNumber", "12"), ("CabinType", "Economy")] Option.none [
    el (otNS "SeatInfo") [] Option.none [
      el (otNS "Summary") [("SeatNumber", "12B")] Option.none []]]

/-- OpenTravel document with two rows both numbered 12. -/
def docC9o : Element :=
  el (soapNS "Envelope") [] Option.none [
    el (soapNS "Body") [] Option.none [
      el (otNS "OTA_AirSeatMapRS") [] Option.none [
        el (otNS "SeatMapResponses") [] Option.none [
          el (otNS "SeatMapResponse") [] Option.none [
            el (otNS "SeatMapDetails") [] Option.none [
              el (otNS "CabinClass") [] Option.none [rowC9oA, rowC9oB]]]]]]]

def recC9oA : SeatRecord :=
  { id := some "12A", available := false, cabinClass := some "Economy",
    price := PyVal.str "no offer", currency := PyVal.str "no offer", seatType := [] }

def recC9oB : SeatRecord :=
  { id := some "12B", available := false, cabinClass := some "Economy",
    price := PyVal.str "no offer", currency := PyVal.str "no offer", seatType := [] }

/-- The evaluated (row key, seats) pairs of `docC9o`, in traversal order. -/
def psC9o : List (Option String × List SeatRecord) :=
  [(some "12", [recC9oA]), (some "12", [recC9oB])]

/-- The output of `parse_opentravel` on `docC9o`. -/
def mC9o : SeatMap :=
  [(some "12", [recC9oB])]

/-- OpenTravel seat used in the row without a CabinType attribute. -/
def seatC10 : Element :=
  el (otNS "SeatInfo") [] Option.none [
    el (otNS "Summary") [("SeatNumber", "9A")] Option.none []]

/-- OpenTravel row with no CabinType attribute. -/
def rowC10 : Element :=
  el (otNS "AirRow") [("RowNumber", "9")] Option.none [seatC10]

/-- The record the source produces for the seat of `rowC10`: its
cabinClass is Python `None`. -/
def recC10 : SeatRecord :=
  { id := some "9A", available := false, cabinClass := Option.none,
    price := PyVal.str "no offer", currency := PyVal.str "no offer", seatType := [] }

/-- The output for the single row `rowC10`. -/
def mC10 : SeatMap :=
  [(some "9", [recC10])]

/-! ### Proof support -/

@[simp] theorem ok_bind (a : α) (f : α → Except PyErr β) :
    (Except.ok a >>= f) = f a := rfl

@[simp] theorem error_bind (e : PyErr) (f : α → Except PyErr β) :
    ((Except.error e : Except PyErr α) >>= f) = Except.error e := rfl

@[simp] theorem pure_eq_ok (a : α) : (pure a : Except PyErr α) = Except.ok a := rfl

theorem bind_ok_inv {x : Except PyErr α} {f : α → Except PyErr β} {b : β}
    (h : (x >>= f) = Except.ok b) : ∃ a, x = Except.ok a ∧ f a = Except.ok b := by
  cases x with
  | error e => exact absurd h (by simp)
  | ok a => exact ⟨a, rfl, h⟩

theorem exceptMap_ok_mem {f : α → Except PyErr β} :
    ∀ {l : List α} {ys : List β}, exceptMap f l = Except.ok ys →
      ∀ {y}, y ∈ ys → ∃ x, x ∈ l ∧ f x = Except.ok y := by
  intro l
  induction l with
  | nil =>
      intro ys h y hy
      simp only [exceptMap] at h
      cases h
      cases hy
  | cons a l ih =>
      intro ys h y hy
      simp only [exceptMap] at h
      obtain ⟨b, hb, h⟩ := bind_ok_inv h
      obtain ⟨bs, hbs, h⟩ := bind_ok_inv h
      simp only [pure_eq_ok, Except.ok.injEq] at h
      subst h
      rcases List.mem_cons.mp hy with rfl | hy2
      · exact ⟨a, List.mem_cons_self a l, hb⟩
      · obtain ⟨x, hx, hfx⟩ := ih hbs hy2
        exact ⟨x, List.mem_cons_of_mem a hx, hfx⟩

theorem exceptMap_forall_ok {f : α → Except PyErr β} :
    ∀ {l : List α} {ys : List β}, exceptMap f l = Except.ok ys →
      ∀ x ∈ l, ∃ y, f x = Except.ok y := by
  intro l
  induction l with
  | nil => intro ys h x hx; cases hx
  | cons a l ih =>
      intro ys h x hx
      simp only [exceptMap] at h
      obtain ⟨b, hb, h⟩ := bind_ok_inv h
      obtain ⟨bs, hbs, h⟩ := bind_ok_inv h
      rcases List.mem_cons.mp hx with rfl | hx2
      · exact ⟨b, hb⟩
      · exact ih hbs x hx2

theorem exceptMap_error_of_mem {f : α → Except PyErr β} {l : List α} {x : α} {e0 : PyErr}
    (hx : x ∈ l) (hfx : f x = Except.error e0) :
    ∃ e, exceptMap f l = Except.error e := by
  induction l with
  | nil => cases hx
  | cons a l ih =>
      rcases List.mem_cons.mp hx with rfl | hx2
      · exact ⟨e0, by simp [exceptMap, hfx]⟩
      · cases ha : f a with
        | error e => exact ⟨e, by simp [exceptMap, ha]⟩
        | ok b =>
            obtain ⟨e, he⟩ := ih hx2
            exact ⟨e, by simp [exceptMap, ha, he]⟩

theorem exceptMap_error_pred {f : α → Except PyErr β} (P : PyErr → Prop) :
    ∀ {l : List α}, (∀ x ∈ l, ∀ e, f x = Except.error e → P e) →
      ∀ {e}, exceptMap f l = Except.error e → P e := by
  intro l
  induction l with
  | nil => intro hl e h; simp only [exceptMap] at h; cases h
  | cons a l ih =>
      intro hl e h
      simp only [exceptMap] at h
      cases ha : f a with
      | error e1 =>
          rw [ha] at h
          simp only [error_bind, Except.error.injEq] at h
          subst h
          exact hl a (List.mem_cons_self a l) e1 ha
      | ok b =>
          rw [ha] at h
          simp only [ok_bind] at h
          cases hm : exceptMap f l with
          | error e2 =>
              rw [hm] at h
              simp only [error_bind, Except.error.injEq] at h
              subst h
              exact ih (fun x hx => hl x (List.mem_cons_of_mem a hx)) hm
          | ok bs => rw [hm] at h; simp at h

theorem pyDictGet_ok_iff {α : Type} (d : List (Option String × α)) (k : Option String) (v : α) :
    pyDictGet d k = Except.ok v ↔ dictGet d k = some v := by
  induction d with
  | nil => simp [pyDictGet, dictGet]
  | cons p rest ih =>
      by_cases h : p.1 = k <;> simp [pyDictGet, dictGet, h, ih]

theorem pyDictGet_error_shape {α : Type} (d : List (Option String × α)) (k : Option String) (e : PyErr)
    (h : pyDictGet d k = Except.error e) : e = PyErr.keyError (keyRepr k) := by
  induction d with
  | nil =>
      simp only [pyDictGet, Except.error.injEq] at h
      exact h.symm
  | cons p rest ih =>
      by_cases hp : p.1 = k
      · simp [pyDictGet, hp] at h
      · simp only [pyDictGet, beq_iff_eq, hp, if_false] at h
        exact ih h

theorem pyDictGet_error_of_none {α : Type} (d : List (Option String × α)) (k : Option String)
    (h : dictGet d k = Option.none) :
    pyDictGet d k = Except.error (PyErr.keyError (keyRepr k)) := by
  induction d with
  | nil => rfl
  | cons p rest ih =>
      by_cases hp : p.1 = k
      · simp [dictGet, hp] at h
      · simp only [dictGet, beq_iff_eq, hp, if_false] at h
        simp only [pyDictGet, beq_iff_eq, hp, if_false]
        exact ih h

theorem dictGet_insert {α : Type} (d : List (Option String × α)) (a k : Option String) (v : α) :
    dictGet (dictInsert d a v) k = if a = k then some v else dictGet d k := by
  induction d with
  | nil =>
      by_cases h : a = k <;> simp [dictInsert, dictGet, h]
  | cons p rest ih =>
      by_cases hpa : p.1 = a
      · subst hpa
        by_cases hk : p.1 = k <;> simp [dictInsert, dictGet, hk]
      · by_cases hk : p.1 = k
        · have hak : ¬a = k := fun hh => hpa (hk.trans hh.symm)
          have hka : ¬k = a := fun hh => hak hh.symm
          simp [dictInsert, dictGet, hpa, hk, hak, hka]
        · simp [dictInsert, dictGet, hpa, hk, ih]

theorem dictGet_assembled :
    ∀ (ps : List (Option String × List SeatRecord)) (out : SeatMap) (k : Option String),
      dictGet (assembled ps out) k =
        (((ps.filter (fun p => p.1 == k)).getLast?).map Prod.snd).or (dictGet out k) := by
  intro ps
  induction ps with
  | nil => intro out k; simp [assembled]
  | cons p ps ih =>
      intro out k
      have hstep : assembled (p :: ps) out = assembled ps (dictInsert out p.1 p.2) := rfl
      rw [hstep, ih]
      by_cases hpk : p.1 = k
      · rw [List.filter_cons_of_pos (by simp [hpk])]
        cases hlast : (ps.filter (fun q => q.1 == k)).getLast? with
        | none =>
            have hnil : ps.filter (fun q => q.1 == k) = [] :=
              List.getLast?_eq_none_iff.mp hlast
            rw [hnil]
            simp [List.getLast?_cons, dictGet_insert, hpk]
        | some q =>
            have hne : ps.filter (fun r => r.1 == k) ≠ [] := by
              intro hc; rw [hc] at hlast; cases hlast
            rw [List.getLast?_cons, hlast]
            simp [hlast]
      · rw [List.filter_cons_of_neg (by simp [hpk])]
        rw [dictGet_insert]
        simp [hpk]

theorem iataRows_eq (offers : List (Option String × (Option String × Rat)))
    (defs : List (Option String × Option String)) :
    ∀ (rows : List Element) (out : SeatMap),
      iataRows offers defs rows out =
        (exceptMap (iataRowEval offers defs) rows).map (fun ps => assembled ps out) := by
  intro rows
  induction rows with
  | nil => intro out; rfl
  | cons r rest ih =>
      intro out
      simp only [iataRows, exceptMap]
      cases h : iataRowEval offers defs r with
      | error e => simp [Except.map]
      | ok p =>
          simp only [ok_bind]
          rw [ih (dictInsert out p.1 p.2)]
          cases h2 : exceptMap (iataRowEval offers defs) rest with
          | error e => simp [Except.map]
          | ok ps =>
              simp only [ok_bind, pure_eq_ok, Except.map]
              rfl

theorem otRows_eq :
    ∀ (rows : List Element) (out : SeatMap),
      otRows rows out = (exceptMap otRowEval rows).map (fun ps => assembled ps out) := by
  intro rows
  induction rows with
  | nil => intro out; rfl
  | cons r rest ih =>
      intro out
      simp only [otRows, exceptMap]
      cases h : otRowEval r with
      | error e => simp [Except.map]
      | ok p =>
          simp only [ok_bind]
          rw [ih (dictInsert out p.1 p.2)]
          cases h2 : exceptMap otRowEval rest with
          | error e => simp [Except.map]
          | ok ps =>
              simp only [ok_bind, pure_eq_ok, Except.map]
              rfl

theorem otRows_append :
    ∀ (l1 l2 : List Element) (out : SeatMap),
      otRows (l1 ++ l2) out = (otRows l1 out) >>= fun m => otRows l2 m := by
  intro l1
  induction l1 with
  | nil => intro l2 out; rfl
  | cons r rest ih =>
      intro l2 out
      simp only [List.cons_append, otRows]
      cases h : otRowEval r with
      | error e => simp
      | ok p => simp only [ok_bind]; exact ih l2 (dictInsert out p.1 p.2)

theorem otCabins_eq :
    ∀ (cabins : List Element) (out : SeatMap),
      otCabins cabins out = otRows (cabins.flatMap Element.children) out := by
  intro cabins
  induction cabins with
  | nil => intro out; rfl
  | cons c rest ih =>
      intro out
      simp only [List.flatMap_cons, otCabins, otRows_append]
      cases h : otRows c.children out with
      | error e => simp
      | ok m => simp only [ok_bind]; exact ih m

theorem findallPath_single (e : Element) (t : String) :
    findallPath e [t] = childrenTagged e t := by
  simp [findallPath]

theorem children_nonempty_of_findPath {sv x : Element} {t : String}
    (h : findPath sv [t] = some x) : sv.children.isEmpty = false := by
  by_contra hb
  rw [Bool.not_eq_false] at hb
  have hnil : sv.children = [] := List.isEmpty_iff.mp hb
  simp [findPath, findallPath_single, childrenTagged, hnil] at h

theorem otSeatRecord_fields {cc : Option String} {seat : Element} {rec : SeatRecord}
    (h : otSeatRecord cc seat = Except.ok rec) :
    otPriceCurrency seat = Except.ok (rec.price, rec.currency) ∧ rec.cabinClass = cc := by
  unfold otSeatRecord at h
  obtain ⟨pc, h1, h⟩ := bind_ok_inv h
  obtain ⟨idv, h2, h⟩ := bind_ok_inv h
  obtain ⟨availv, h3, h⟩ := bind_ok_inv h
  obtain ⟨st, h4, h⟩ := bind_ok_inv h
  simp only [pure_eq_ok, Except.ok.injEq] at h
  subst h
  exact ⟨h1, rfl⟩

theorem otSeatRecord_error_of_pc {cc : Option String} {seat : Element} {e : PyErr}
    (h : otPriceCurrency seat = Except.error e) :
    otSeatRecord cc seat = Except.error e := by
  simp [otSeatRecord, h]

theorem otPriceCurrency_fee {seat sv fee : Element} {amt ds : String} {qa : Rat} {d : Int}
    (hsv : findPath seat [otNS "Service"] = some sv)
    (hfee : findPath sv [otNS "Fee"] = some fee)
    (ha : fee.get "Amount" = some amt) (hqa : pyFloat amt = some qa)
    (hds : fee.get "DecimalPlaces" = some ds) (hd : pyInt ds = some d) :
    otPriceCurrency seat =
      Except.ok (PyVal.num (qa / (10 : Rat) ^ d), pvOfOpt (fee.get "CurrencyCode")) := by
  have hne : sv.children.isEmpty = false := children_nonempty_of_findPath hfee
  simp [otPriceCurrency, hsv, hne, hfee, pyGetOn, ha, pyFloatOf, hqa, hds, pyIntOf, hd]

theorem otPriceCurrency_float_error {seat sv fee : Element} {amt : String}
    (hsv : findPath seat [otNS "Service"] = some sv)
    (hfee : findPath sv [otNS "Fee"] = some fee)
    (ha : fee.get "Amount" = some amt) (hqa : pyFloat amt = Option.none) :
    otPriceCurrency seat =
      Except.error (PyErr.valueError ("could not convert string to float: " ++ amt)) := by
  have hne : sv.children.isEmpty = false := children_nonempty_of_findPath hfee
  simp [otPriceCurrency, hsv, hne, hfee, pyGetOn, ha, pyFloatOf, hqa]

theorem otPriceCurrency_int_error {seat sv fee : Element} {amt ds : String} {qa : Rat}
    (hsv : findPath seat [otNS "Service"] = some sv)
    (hfee : findPath sv [otNS "Fee"] = some fee)
    (ha : fee.get "Amount" = some amt) (hqa : pyFloat amt = some qa)
    (hds : fee.get "DecimalPlaces" = some ds) (hd : pyInt ds = Option.none) :
    otPriceCurrency seat =
      Except.error (PyErr.valueError ("invalid literal for int with base 10: " ++ ds)) := by
  have hne : sv.children.isEmpty = false := children_nonempty_of_findPath hfee
  simp [otPriceCurrency, hsv, hne, hfee, pyGetOn, ha, pyFloatOf, hqa, hds, pyIntOf, hd]

theorem otPriceCurrency_sentinel {seat : Element}
    (h : truthyElem (findPath seat [otNS "Service"]) = false) :
    otPriceCurrency seat = Except.ok (PyVal.str "no offer", PyVal.str "no offer") := by
  unfold otPriceCurrency
  cases hsv : findPath seat [otNS "Service"] with
  | none => rfl
  | some sv =>
      rw [hsv] at h
      simp only [truthyElem, Bool.not_eq_false'] at h
      simp [h]

theorem otPriceCurrency_truthy_num {seat : Element} {pc : PyVal × PyVal}
    (h : truthyElem (findPath seat [otNS "Service"]) = true)
    (hok : otPriceCurrency seat = Except.ok pc) :
    ∃ q, pc.1 = PyVal.num q := by
  unfold otPriceCurrency at hok
  cases hsv : findPath seat [otNS "Service"] with
  | none => rw [hsv] at h; simp [truthyElem] at h
  | some sv =>
      rw [hsv] at h hok
      simp only [truthyElem, Bool.not_eq_true'] at h
      simp only [h, Bool.false_eq_true, if_false] at hok
      obtain ⟨amtS, h1, hok⟩ := bind_ok_inv hok
      obtain ⟨qa, h2, hok⟩ := bind_ok_inv hok
      obtain ⟨dpS, h3, hok⟩ := bind_ok_inv hok
      obtain ⟨d, h4, hok⟩ := bind_ok_inv hok
      obtain ⟨cur, h5, hok⟩ := bind_ok_inv hok
      simp only [pure_eq_ok, Except.ok.injEq] at hok
      subst hok
      exact ⟨qa / (10 : Rat) ^ d, rfl⟩

theorem iataSeatRecord_fields {offers : List (Option String × (Option String × Rat))}
    {defs : List (Option String × Option String)} {rn : Option String} {seat : Element}
    {rec : SeatRecord} (h : iataSeatRecord offers defs rn seat = Except.ok rec) :
    ∃ st, resolveRefs defs seat = Except.ok st ∧
      rec.available = st.contains (some "AVAILABLE") ∧
      rec.seatType = st.filter (fun x => x != some "AVAILABLE") ∧
      resolveOffer offers seat = Except.ok (rec.price, rec.currency) ∧
      rec.cabinClass = some "unspecified" := by
  unfold iataSeatRecord at h
  obtain ⟨pc, h1, h⟩ := bind_ok_inv h
  obtain ⟨st, h2, h⟩ := bind_ok_inv h
  obtain ⟨colT, h3, h⟩ := bind_ok_inv h
  obtain ⟨idv, h4, h⟩ := bind_ok_inv h
  simp only [pure_eq_ok, Except.ok.injEq] at h
  subst h
  exact ⟨st, h2, rfl, rfl, h1, rfl⟩

theorem iataSeatRecord_offer_keyerror {offers : List (Option String × (Option String × Rat))}
    {defs : List (Option String × Option String)} {rn : Option String} {seat offer : Element}
    (hoff : findPath seat [iataNS "OfferItemRefs"] = some offer)
    (hmiss : dictGet offers offer.text = Option.none) :
    iataSeatRecord offers defs rn seat = Except.error (PyErr.keyError (keyRepr offer.text)) := by
  have h1 : resolveOffer offers seat = Except.error (PyErr.keyError (keyRepr offer.text)) := by
    simp [resolveOffer, hoff, pyDictGet_error_of_none offers offer.text hmiss]
  simp [iataSeatRecord, h1]

theorem iataSeatRecord_ref_keyerror {offers : List (Option String × (Option String × Rat))}
    {defs : List (Option String × Option String)} {rn : Option String} {seat ref : Element}
    {pc : PyVal × PyVal}
    (hok : resolveOffer offers seat = Except.ok pc)
    (href : ref ∈ childrenTagged seat (iataNS "SeatDefinitionRef"))
    (hmiss : dictGet defs ref.text = Option.none) :
    ∃ k, iataSeatRecord offers defs rn seat = Except.error (PyErr.keyError k) := by
  obtain ⟨e, he⟩ : ∃ e, resolveRefs defs seat = Except.error e :=
    exceptMap_error_of_mem href (pyDictGet_error_of_none defs ref.text hmiss)
  obtain ⟨k, rfl⟩ : ∃ k, e = PyErr.keyError k :=
    exceptMap_error_pred (fun e2 => ∃ k, e2 = PyErr.keyError k)
      (fun x hx e2 h2 => ⟨keyRepr x.text, pyDictGet_error_shape defs x.text e2 h2⟩) he
  exact ⟨k, by simp [iataSeatRecord, hok, he]⟩

theorem iataRowEval_fields {offers : List (Option String × (Option String × Rat))}
    {defs : List (Option String × Option String)} {row : Element}
    {p : Option String × List SeatRecord}
    (h : iataRowEval offers defs row = Except.ok p) :
    pyTextOn (findPath row [iataNS "Number"]) = Except.ok p.1 ∧
      exceptMap (iataSeatRecord offers defs p.1) (childrenTagged row (iataNS "Seat")) =
        Except.ok p.2 := by
  unfold iataRowEval at h
  obtain ⟨rn, h1, h⟩ := bind_ok_inv h
  obtain ⟨seats, h2, h⟩ := bind_ok_inv h
  simp only [pure_eq_ok, Except.ok.injEq] at h
  subst h
  exact ⟨h1, h2⟩

theorem iataRows_ok_forall {offers : List (Option String × (Option String × Rat))}
    {defs : List (Option String × Option String)} :
    ∀ {rows : List Element} {out m : SeatMap},
      iataRows offers defs rows out = Except.ok m →
        ∀ row ∈ rows, ∃ p, iataRowEval offers defs row = Except.ok p := by
  intro rows
  induction rows with
  | nil => intro out m h row hrow; cases hrow
  | cons r rest ih =>
      intro out m h row hrow
      simp only [iataRows] at h
      obtain ⟨p, hp, h⟩ := bind_ok_inv h
      rcases List.mem_cons.mp hrow with rfl | hrow2
      · exact ⟨p, hp⟩
      · exact ih h row hrow2

theorem rs_not_envelope {t : String} (h : pyEndsWith t "SeatAvailabilityRS" = true) :
    pyEndsWith t "Envelope" = false := by
  by_contra hc
  rw [Bool.not_eq_false] at hc
  simp only [pyEndsWith, List.isSuffixOf_iff_suffix] at h hc
  obtain ⟨u, hu⟩ := h
  obtain ⟨w, hw⟩ := hc
  have e1 : t.data.getLast? = some 'S' := by
    rw [← hu, List.getLast?_append]
    rfl
  have e2 : t.data.getLast? = some 'e' := by
    rw [← hw, List.getLast?_append]
    rfl
  rw [e1] at e2
  exact absurd e2 (by decide)


/-! ### Claims -/

/-- Claim C1 (code bug): the claim says an `OfferItemRefs` of OFF1 with the
Offer Index mapping OFF1 to (USD, 25.5) yields price 25.5 and currency USD,
assigned by name.  The source stores the tuple `(currency, price)` (line
127) but unpacks it positionally as `price, currency = offers[offer.text]`
(line 143), so on `docC1` the produced record has price "USD" (a string)
and currency 25.5 (a number) — the module docstring of the source shows a
numeric price and a string currency, so the code contradicts its own
documentation. -/
theorem iata_offer_resolution_swapped :
    iataOffers (findallPath docC1 iataOfferPath) [] =
      Except.ok [(some "OFF1", (some "USD", (51 : Rat) / 2))] ∧
    parse_iata docC1 = Except.ok [(some "12", [recC1])] ∧
    recC1.price = PyVal.str "USD" ∧
    recC1.currency = PyVal.num ((51 : Rat) / 2) := by
  with_unfolding_all exact ⟨rfl, rfl, rfl, rfl⟩

/-- Claim C2: dispatch on the root tag — a tag ending in Envelope goes to
the OpenTravel extractor, one ending in SeatAvailabilityRS to the IATA
extractor, and any other tag raises the unsupported-format `ValueError`,
producing no output mapping. -/
theorem parse_from_dispatch (root : Element) :
    (pyEndsWith root.tag "Envelope" = true →
      parse_from root = parse_opentravel root) ∧
    (pyEndsWith root.tag "SeatAvailabilityRS" = true →
      parse_from root = parse_iata root) ∧
    (pyEndsWith root.tag "Envelope" = false →
      pyEndsWith root.tag "SeatAvailabilityRS" = false →
      parse_from root =
        Except.error (PyErr.valueError "unsupported XML format: use OpenTravel or IATA.")) := by
  refine ⟨fun h => ?_, fun h => ?_, fun h1 h2 => ?_⟩
  · simp [parse_from, h]
  · have hne := rs_not_envelope h
    simp [parse_from, h, hne]
  · simp [parse_from, h1, h2]

/-- Witness for C2 at three concrete roots: a SOAP envelope, an IATA
availability response, and the unknown root Foo. -/
theorem parse_from_dispatch_witness :
    parse_from rootEnvC2 = parse_opentravel rootEnvC2 ∧
    parse_from rootRsC2 = parse_iata rootRsC2 ∧
    parse_from rootFooC2 =
      Except.error (PyErr.valueError "unsupported XML format: use OpenTravel or IATA.") :=
  ⟨(parse_from_dispatch rootEnvC2).1 (by decide),
   (parse_from_dispatch rootRsC2).2.1 (by decide),
   (parse_from_dispatch rootFooC2).2.2 (by decide) (by decide)⟩

/-- Claim C3: for an IATA seat whose references resolve to the display-name
list `st`, the record is available exactly when "AVAILABLE" occurs in `st`,
and its seatType is `st` with every "AVAILABLE" removed, in order. -/
theorem iata_available_and_seatType
    (offers : List (Option String × (Option String × Rat)))
    (defs : List (Option String × Option String)) (rn : Option String) (seat : Element)
    (st : List (Option String)) (rec : SeatRecord)
    (hst : resolveRefs defs seat = Except.ok st)
    (hok : iataSeatRecord offers defs rn seat = Except.ok rec) :
    (rec.available = true ↔ some "AVAILABLE" ∈ st) ∧
    rec.seatType = st.filter (fun x => x != some "AVAILABLE") := by
  obtain ⟨st2, h2, hav, hstt, hpc, hcb⟩ := iataSeatRecord_fields hok
  rw [hst] at h2
  injection h2 with h2
  subst h2
  constructor
  · rw [hav]
    simp [List.contains]
  · exact hstt

/-- Witness for C3: resolved definitions AVAILABLE and Window yield an
available seat whose seatType is just Window. -/
theorem iata_available_and_seatType_witness :
    (recC3.available = true ↔ some "AVAILABLE" ∈ stC3) ∧
    recC3.seatType = stC3.filter (fun x => x != some "AVAILABLE") :=
  iata_available_and_seatType [] defsC3 (some "7") seatC3 stC3 recC3 rfl rfl

/-- Claim C4: an OpenTravel seat with a priced service gets
price = Amount / 10 ^ DecimalPlaces (division is exact here: floats are
modelled by rationals) and currency = the Fee CurrencyCode attribute. -/
theorem ot_fee_price_currency (cc : Option String) (seat sv fee : Element)
    (amt ds : String) (qa : Rat) (d : Int) (rec : SeatRecord)
    (hsv : findPath seat [otNS "Service"] = some sv)
    (hfee : findPath sv [otNS "Fee"] = some fee)
    (ha : fee.get "Amount" = some amt) (hqa : pyFloat amt = some qa)
    (hds : fee.get "DecimalPlaces" = some ds) (hd : pyInt ds = some d)
    (hok : otSeatRecord cc seat = Except.ok rec) :
    rec.price = PyVal.num (qa / (10 : Rat) ^ d) ∧
    rec.currency = pvOfOpt (fee.get "CurrencyCode") := by
  obtain ⟨hpc, hcb⟩ := otSeatRecord_fields hok
  rw [otPriceCurrency_fee hsv hfee ha hqa hds hd] at hpc
  injection hpc with h
  rw [Prod.mk.injEq] at h
  exact ⟨h.1.symm, h.2.symm⟩

/-- Witness for C4: Amount 4400 with DecimalPlaces 2 gives price 44 in
currency USD. -/
theorem ot_fee_price_currency_witness :
    recC4.price = PyVal.num ((4400 : Rat) / (10 : Rat) ^ (2 : Int)) ∧
    recC4.currency = pvOfOpt (feeC4.get "CurrencyCode") :=
  ot_fee_price_currency (some "Economy") seatC4 svC4 feeC4 "4400" "2" 4400 2 recC4
    rfl rfl rfl (by with_unfolding_all rfl) rfl rfl (by with_unfolding_all rfl)

/-- Claim C5 counterexample: `seatC5` has a `Service` child that exists but
has no children, and the source still takes the sentinel path — price and
currency are both "no offer", refuting the claim that any existing
`Service` element is treated as present. -/
theorem ot_empty_service_counterexample :
    findPath seatC5 [otNS "Service"] = some svC5 ∧
    svC5.children = [] ∧
    otSeatRecord (some "Economy") seatC5 = Except.ok recC5 ∧
    recC5.price = PyVal.str "no offer" ∧
    recC5.currency = PyVal.str "no offer" :=
  ⟨rfl, rfl, rfl, rfl, rfl⟩

/-- Claim C5 (amended): the sentinel is used exactly when the `Service`
lookup is falsy — the child is absent or present with no children; the fee
pricing path (producing a numeric price) runs only when `Service` exists
and has at least one child. -/
theorem ot_service_truthiness (cc : Option String) (seat : Element) (rec : SeatRecord)
    (hok : otSeatRecord cc seat = Except.ok rec) :
    (truthyElem (findPath seat [otNS "Service"]) = false →
      rec.price = PyVal.str "no offer" ∧ rec.currency = PyVal.str "no offer") ∧
    (truthyElem (findPath seat [otNS "Service"]) = true →
      ∃ q, rec.price = PyVal.num q) := by
  obtain ⟨hpc, hcb⟩ := otSeatRecord_fields hok
  constructor
  · intro hf
    rw [otPriceCurrency_sentinel hf] at hpc
    injection hpc with h
    rw [Prod.mk.injEq] at h
    exact ⟨h.1.symm, h.2.symm⟩
  · intro ht
    exact otPriceCurrency_truthy_num ht hpc

/-- Witness for the amended C5: the empty-Service seat gets the sentinel,
the priced seat gets a numeric price. -/
theorem ot_service_truthiness_witness :
    (recC5.price = PyVal.str "no offer" ∧ recC5.currency = PyVal.str "no offer") ∧
    (∃ q, recC4.price = PyVal.num q) :=
  ⟨(ot_service_truthiness (some "Economy") seatC5 recC5 rfl).1 rfl,
   (ot_service_truthiness (some "Economy") seatC4 recC4 (by with_unfolding_all rfl)).2 rfl⟩

/-- Claim C6 counterexample: the Amount string 44.5 is not a valid integer,
yet the source accepts it (Python `float` parses it) and produces
price 4.45 without raising — refuting the claim that a non-integer Amount
raises a malformed-document error. -/
theorem ot_nonint_amount_counterexample :
    pyInt "44.5" = Option.none ∧
    otSeatRecord (some "Economy") seatC6c = Except.ok recC6c ∧
    recC6c.price = PyVal.num ((89 : Rat) / 20) :=
  ⟨rfl, by with_unfolding_all rfl, rfl⟩

/-- Claim C6 (amended): with a present `Service`/`Fee`, a decoding error is
raised exactly by the conversions the source applies — `float` on Amount
and `int` on DecimalPlaces: an Amount that fails float parsing, or a
DecimalPlaces that fails int parsing, raises a `ValueError` (never silently
defaulted); a float-parseable non-integer Amount is accepted. -/
theorem ot_numeric_decode_errors (cc : Option String) (seat sv fee : Element)
    (hsv : findPath seat [otNS "Service"] = some sv)
    (hfee : findPath sv [otNS "Fee"] = some fee) :
    (∀ amt, fee.get "Amount" = some amt → pyFloat amt = Option.none →
      otSeatRecord cc seat =
        Except.error (PyErr.valueError ("could not convert string to float: " ++ amt))) ∧
    (∀ amt qa ds, fee.get "Amount" = some amt → pyFloat amt = some qa →
      fee.get "DecimalPlaces" = some ds → pyInt ds = Option.none →
      otSeatRecord cc seat =
        Except.error (PyErr.valueError ("invalid literal for int with base 10: " ++ ds))) := by
  constructor
  · intro amt ha hqa
    exact otSeatRecord_error_of_pc (otPriceCurrency_float_error hsv hfee ha hqa)
  · intro amt qa ds ha hqa hds hd
    exact otSeatRecord_error_of_pc (otPriceCurrency_int_error hsv hfee ha hqa hds hd)

/-- Witness for the amended C6: Amount "abc" raises the float ValueError;
DecimalPlaces "2.0" raises the int ValueError. -/
theorem ot_numeric_decode_errors_witness :
    otSeatRecord (some "Economy") seatC6a =
      Except.error (PyErr.valueError ("could not convert string to float: " ++ "abc")) ∧
    otSeatRecord (some "Economy") seatC6b =
      Except.error (PyErr.valueError ("invalid literal for int with base 10: " ++ "2.0")) :=
  ⟨(ot_numeric_decode_errors (some "Economy") seatC6a svC6a feeC6a rfl rfl).1 "abc" rfl rfl,
   (ot_numeric_decode_errors (some "Economy") seatC6b svC6b feeC6b rfl rfl).2 "4400" 4400 "2.0"
     rfl (by with_unfolding_all rfl) rfl rfl⟩

/-- Claim C7 (code bug): the claim's invariant says price and currency are
both "no offer" or both concrete with price a number and currency a string;
on `docC7` (offer OFF9 priced 10.0 EUR) the source produces a record whose
price is the string "EUR" and whose currency is the number 10 — concrete
but with the types swapped by the positional unpacking, contradicting the
module docstring of the source. -/
theorem seat_price_currency_types_bug :
    parse_iata docC7 = Except.ok [(some "3", [recC7])] ∧
    recC7.price = PyVal.str "EUR" ∧
    recC7.currency = PyVal.num (10 : Rat) := by
  with_unfolding_all exact ⟨rfl, rfl, rfl⟩

/-- Claim C8: an `OfferItemRefs` text absent from the offer index, or a
`SeatDefinitionRef` text absent from the definition index, raises a
`KeyError` (modelling the malformed-document error; no default is
substituted), and a successful `parse_iata` run implies every row of the
walk evaluated successfully — so a failing reference means the whole
transform fails and no output mapping is produced. -/
theorem iata_unknown_reference_errors :
    (∀ (offers : List (Option String × (Option String × Rat)))
       (defs : List (Option String × Option String)) (rn : Option String)
       (seat offer : Element),
       findPath seat [iataNS "OfferItemRefs"] = some offer →
       dictGet offers offer.text = Option.none →
       iataSeatRecord offers defs rn seat =
         Except.error (PyErr.keyError (keyRepr offer.text))) ∧
    (∀ (offers : List (Option String × (Option String × Rat)))
       (defs : List (Option String × Option String)) (rn : Option String)
       (seat ref : Element) (pc : PyVal × PyVal),
       resolveOffer offers seat = Except.ok pc →
       ref ∈ childrenTagged seat (iataNS "SeatDefinitionRef") →
       dictGet defs ref.text = Option.none →
       ∃ k, iataSeatRecord offers defs rn seat = Except.error (PyErr.keyError k)) ∧
    (∀ (offers : List (Option String × (Option String × Rat)))
       (defs : List (Option String × Option String)) (root : Element) (m : SeatMap),
       iataOffers (findallPath root iataOfferPath) [] = Except.ok offers →
       iataDefs (findallPath root iataDefPath) [] = Except.ok defs →
       parse_iata root = Except.ok m →
       ∀ row ∈ findallPath root iataRowPath,
         ∃ p, iataRowEval offers defs row = Except.ok p) := by
  refine ⟨?_, ?_, ?_⟩
  · intro offers defs rn seat offer hoff hmiss
    exact iataSeatRecord_offer_keyerror hoff hmiss
  · intro offers defs rn seat ref pc hok href hmiss
    exact iataSeatRecord_ref_keyerror hok href hmiss
  · intro offers defs root m h1 h2 hok row hrow
    unfold parse_iata at hok
    rw [h1] at hok
    simp only [ok_bind] at hok
    rw [h2] at hok
    simp only [ok_bind] at hok
    exact iataRows_ok_forall hok row hrow

/-- Witness for C8: an unknown offer reference OFF1 raises KeyError OFF1,
an unknown definition reference R1 raises a KeyError, and on the valid
document `docC8` the successful parse certifies that its row evaluated. -/
theorem iata_unknown_reference_errors_witness :
    iataSeatRecord [] [] (some "1") seatC8a =
      Except.error (PyErr.keyError (keyRepr offerRefC8.text)) ∧
    (∃ k, iataSeatRecord [] [] (some "1") seatC8b = Except.error (PyErr.keyError k)) ∧
    (∃ p, iataRowEval [] [] rowC8 = Except.ok p) :=
  ⟨iata_unknown_reference_errors.1 [] [] (some "1") seatC8a offerRefC8 rfl rfl,
   iata_unknown_reference_errors.2.1 [] [] (some "1") seatC8b refC8
     (PyVal.str "no offer", PyVal.str "no offer") rfl
     (show refC8 ∈ childrenTagged seatC8b (iataNS "SeatDefinitionRef") from
       List.mem_cons_self refC8 []) rfl,
   iata_unknown_reference_errors.2.2 [] [] docC8 mC8 rfl rfl rfl rowC8
     (show rowC8 ∈ findallPath docC8 iataRowPath from List.mem_cons_self rowC8 [])⟩

/-- Claim C9: in both formats the output under a row key is exactly the
seat list of the last-traversed row carrying that key — the later
occurrence replaces any earlier one entirely (dict assignment, no merge). -/
theorem duplicate_row_last_write_wins :
    (∀ (offers : List (Option String × (Option String × Rat)))
       (defs : List (Option String × Option String)) (root : Element) (m : SeatMap)
       (ps : List (Option String × List SeatRecord)) (k : Option String),
       iataOffers (findallPath root iataOfferPath) [] = Except.ok offers →
       iataDefs (findallPath root iataDefPath) [] = Except.ok defs →
       exceptMap (iataRowEval offers defs) (findallPath root iataRowPath) = Except.ok ps →
       parse_iata root = Except.ok m →
       dictGet m k = ((ps.filter (fun p => p.1 == k)).getLast?).map Prod.snd) ∧
    (∀ (root : Element) (m : SeatMap)
       (ps : List (Option String × List SeatRecord)) (k : Option String),
       exceptMap otRowEval ((findallPath root otCabinsPath).flatMap Element.children) =
         Except.ok ps →
       parse_opentravel root = Except.ok m →
       dictGet m k = ((ps.filter (fun p => p.1 == k)).getLast?).map Prod.snd) := by
  constructor
  · intro offers defs root m ps k h1 h2 hps hok
    unfold parse_iata at hok
    rw [h1] at hok
    simp only [ok_bind] at hok
    rw [h2] at hok
    simp only [ok_bind] at hok
    rw [iataRows_eq, hps] at hok
    simp only [Except.map, Except.ok.injEq] at hok
    subst hok
    rw [dictGet_assembled]
    simp [dictGet]
  · intro root m ps k hps hok
    unfold parse_opentravel at hok
    rw [otCabins_eq, otRows_eq, hps] at hok
    simp only [Except.map, Except.ok.injEq] at hok
    subst hok
    rw [dictGet_assembled]
    simp [dictGet]

/-- Witness for C9: documents of each format with two rows numbered 12
yield only the second row's seat list under key 12. -/
theorem duplicate_row_last_write_wins_witness :
    dictGet mC9i (some "12") =
      ((psC9i.filter (fun p => p.1 == some "12")).getLast?).map Prod.snd ∧
    dictGet mC9o (some "12") =
      ((psC9o.filter (fun p => p.1 == some "12")).getLast?).map Prod.snd :=
  ⟨duplicate_row_last_write_wins.1 [] [] docC9i mC9i psC9i (some "12") rfl rfl rfl rfl,
   duplicate_row_last_write_wins.2 docC9o mC9o psC9o (some "12") rfl rfl⟩

/-- Claim C10: an OpenTravel row without a CabinType attribute parses
without failing and without substituting "unspecified": every seat record
of that row carries cabinClass `None`. -/
theorem missing_cabintype_yields_none (row : Element) (out m : SeatMap)
    (hcc : row.get "CabinType" = Option.none)
    (hok : otRows [row] out = Except.ok m)
    (seats : List SeatRecord)
    (hget : dictGet m (row.get "RowNumber") = some seats) :
    ∀ rec ∈ seats, rec.cabinClass = Option.none := by
  simp only [otRows] at hok
  obtain ⟨p, hp, hok⟩ := bind_ok_inv hok
  simp only [otRows, pure_eq_ok, Except.ok.injEq] at hok
  subst hok
  unfold otRowEval at hp
  obtain ⟨seats0, hs, hp⟩ := bind_ok_inv hp
  simp only [pure_eq_ok, Except.ok.injEq] at hp
  subst hp
  rw [dictGet_insert] at hget
  simp only [if_pos] at hget
  injection hget with hget
  subst hget
  intro rec hrec
  obtain ⟨x, hx, hfx⟩ := exceptMap_ok_mem hs hrec
  rw [hcc] at hfx
  exact (otSeatRecord_fields hfx).2

/-- Witness for C10: the row with no CabinType yields a record whose
cabinClass is `None`. -/
theorem missing_cabintype_yields_none_witness : recC10.cabinClass = Option.none :=
  missing_cabintype_yields_none rowC10 [] mC10 rfl rfl [recC10] rfl recC10
    (List.mem_cons_self recC10 [])
